import Mathlib

/-!
Verification of `docs/take_screenshots.py` (gantty repository).

The script is a linear Playwright walkthrough: it launches one browser page,
navigates to a fixed URL, and executes a fixed sequence of steps.  Each step is
either an unconditional browser action (navigate, wait, screenshot, …) or a
conditional block of the exact source shape

    loc = page.locator(sel)
    if loc.count() > k:
        <inner actions>

We embed this shallowly: the observable browser interactions are an `Event`
inductive, the script is a `List Step` transcribed line-by-line from the
source, and `runSteps` interprets it against an environment oracle `Env` that
answers each selector-count query and decides which browser calls throw.
A throwing call is modelled, as in Python, by aborting the remainder of the
run; the propagating exception is represented by a `StepExecutionError`
recording the position at which it escaped, the failing operation, and the
underlying cause.
-/

namespace Gantty

/-- One observable browser/system interaction performed by the script.
Each constructor corresponds to one kind of Playwright (or `time.sleep` /
`print`) call appearing in `docs/take_screenshots.py`. -/
inductive Event where
  | launchBrowser : Event
  | newPage (width : Nat) (height : Nat) : Event
  | goto (url : String) : Event
  | waitForLoadState (state : String) : Event
  | sleep (seconds : Nat) : Event
  | printMsg (msg : String) : Event
  | screenshot (path : String) : Event
  | query (selector : String) : Event
  | click (selector : String) (nth : Option Nat) : Event
  | keyType (text : String) : Event
  | press (key : String) : Event
  | waitForTimeout (ms : Nat) : Event
  | fill (selector : String) (value : String) : Event
  | closeBrowser : Event
deriving DecidableEq, Repr

/-- A step of the script: either an unconditional action, or a conditional
block `if page.locator(sel).count() > k: <inner>` (the only branching shape
in the source; `k` is 0 for plain existence checks, 1 for the subtask block,
5 for the calendar-day block). -/
inductive Step where
  | act (e : Event) : Step
  | condBlock (selector : String) (k : Nat) (inner : List Step) : Step

/-- Environment oracle for one run: `count tr sel` is the element count the
page reports for selector `sel` when the interactions performed so far are
`tr`; `failsWith tr e` is `some cause` when attempting interaction `e` at that
point raises an exception with message `cause`, `none` when it succeeds. -/
structure Env where
  count : List Event → String → Nat
  failsWith : List Event → Event → Option String

/-- The exception escaping a failed run, as seen by the caller: the index of
the failing interaction (= number of interactions completed before it), the
interaction that was being attempted, and the underlying cause.  This models
the propagating Python exception together with the program point (traceback
line) at which it escaped. -/
structure StepExecutionError where
  stepIndex : Nat
  event : Event
  cause : String
deriving DecidableEq, Repr

mutual

/-- Interpret one step from trace `tr`.  An unconditional action that throws
yields the escaping error together with the trace at the failure point (the
source has no try/except, so the exception aborts everything that follows); a
conditional block first performs the `.count()` query, then runs its inner
steps only when the reported count exceeds the threshold `k`, and otherwise
does nothing further. -/
def runStep (env : Env) (s : Step) (tr : List Event) :
    Except (StepExecutionError × List Event) (List Event) :=
  match s with
  | .act e =>
    match env.failsWith tr e with
    | some c => .error (⟨tr.length, e, c⟩, tr)
    | none => .ok (tr ++ [e])
  | .condBlock sel k inner =>
    match env.failsWith tr (.query sel) with
    | some c => .error (⟨tr.length, .query sel, c⟩, tr)
    | none =>
      if env.count tr sel > k then
        runSteps env inner (tr ++ [.query sel])
      else
        .ok (tr ++ [.query sel])

/-- Interpret a list of steps in order from trace `tr`: the first error aborts
the remainder, exactly as an uncaught Python exception does. -/
def runSteps (env : Env) (steps : List Step) (tr : List Event) :
    Except (StepExecutionError × List Event) (List Event) :=
  match steps with
  | [] => .ok tr
  | s :: rest =>
    match runStep env s tr with
    | .error e => .error e
    | .ok tr2 => runSteps env rest tr2

end

/-- The interactions actually performed, whether the run succeeded or not. -/
def observedTrace (r : Except (StepExecutionError × List Event) (List Event)) :
    List Event :=
  match r with
  | .ok tr => tr
  | .error (_, tr) => tr

/- Selector literals of the script (verbatim from the source). -/

def addButtonSelector : String := "button:has-text(\"タスクを追加\")"
def subtaskButtonsSelector : String := "[aria-label=\"サブタスクを追加\"]"
def taskItemsSelector : String := "[data-testid^=\"task-item-\"]"
def startDateSelector : String := "button:has-text(\"開始日を設定\")"
def dayButtonsSelector : String := "[role=\"gridcell\"] button"
def closeButtonSelector : String := "[aria-label=\"Close\"]"
def ganttButtonSelector : String := "button:has-text(\"ガント\")"
def kanbanButtonSelector : String := "button:has-text(\"カンバン\")"
def networkButtonSelector : String := "button:has-text(\"ネットワーク\")"
def listButtonSelector : String := "button:has-text(\"リスト\")"
def memberButtonSelector : String := "button:has-text(\"メンバー\")"
def addMemberSelector : String := "button:has-text(\"メンバーを追加\")"
def nameInputSelector : String := "input[placeholder*=\"名前\"]"
def closeButtonsSelector : String := "button[aria-label=\"Close\"], button:has-text(\"閉じる\")"
def statusButtonSelector : String := "button:has-text(\"ステータス\")"

/-- One add-task conditional block: `if add_button.count() > 0: click; wait
300; type name; press Enter; wait ms` (ms is 500 for the first task, 300 for
the loop). -/
def addTaskBlock (name : String) (ms : Nat) : Step :=
  .condBlock addButtonSelector 0
    [ .act (.click addButtonSelector none)
    , .act (.waitForTimeout 300)
    , .act (.keyType name)
    , .act (.press "Enter")
    , .act (.waitForTimeout ms) ]

/-- The subtask conditional block: guarded by `subtask_buttons.count() > 1`
and acting on `subtask_buttons.nth(1)`. -/
def subtaskBlock : Step :=
  .condBlock subtaskButtonsSelector 1
    [ .act (.click subtaskButtonsSelector (some 1))
    , .act (.waitForTimeout 300)
    , .act (.keyType "要件定義")
    , .act (.press "Enter")
    , .act (.waitForTimeout 300)
    , .act (.keyType "ワイヤーフレーム作成")
    , .act (.press "Enter")
    , .act (.waitForTimeout 300)
    , .act (.keyType "サイトマップ作成")
    , .act (.press "Escape")
    , .act (.waitForTimeout 500) ]

/-- The whole script of `main()` in `docs/take_screenshots.py`, transcribed
step by step and in order from the source. -/
def script : List Step :=
  [ .act .launchBrowser
  , .act (.newPage 1280 800)
  , .act (.goto "http://localhost:1420")
  , .act (.waitForLoadState "networkidle")
  , .act (.sleep 1)
  , .act (.printMsg "Taking screenshot: 01_empty_list_view.png")
  , .act (.screenshot "docs/images/01_empty_list_view.png")
  , addTaskBlock "ウェブサイトリニューアル" 500
  , addTaskBlock "企画・設計フェーズ" 300
  , addTaskBlock "デザイン制作" 300
  , addTaskBlock "開発・実装" 300
  , addTaskBlock "テスト・検証" 300
  , addTaskBlock "本番リリース" 300
  , .act (.printMsg "Taking screenshot: 02_list_view_with_tasks.png")
  , .act (.screenshot "docs/images/02_list_view_with_tasks.png")
  , subtaskBlock
  , .act (.printMsg "Taking screenshot: 03_list_view_hierarchy.png")
  , .act (.screenshot "docs/images/03_list_view_hierarchy.png")
  , .condBlock taskItemsSelector 0
      [ .act (.click taskItemsSelector (some 0))
      , .act (.waitForTimeout 500) ]
  , .act (.printMsg "Taking screenshot: 04_task_detail_panel.png")
  , .act (.screenshot "docs/images/04_task_detail_panel.png")
  , .condBlock startDateSelector 0
      [ .act (.click startDateSelector none)
      , .act (.waitForTimeout 300)
      , .condBlock dayButtonsSelector 5
          [ .act (.click dayButtonsSelector (some 5))
          , .act (.waitForTimeout 300) ] ]
  , .condBlock closeButtonSelector 0
      [ .act (.click closeButtonSelector (some 0))
      , .act (.waitForTimeout 300) ]
  , .condBlock ganttButtonSelector 0
      [ .act (.click ganttButtonSelector none)
      , .act (.waitForTimeout 1000) ]
  , .act (.printMsg "Taking screenshot: 05_gantt_view.png")
  , .act (.screenshot "docs/images/05_gantt_view.png")
  , .condBlock kanbanButtonSelector 0
      [ .act (.click kanbanButtonSelector none)
      , .act (.waitForTimeout 1000) ]
  , .act (.printMsg "Taking screenshot: 06_kanban_view.png")
  , .act (.screenshot "docs/images/06_kanban_view.png")
  , .condBlock networkButtonSelector 0
      [ .act (.click networkButtonSelector none)
      , .act (.waitForTimeout 1000) ]
  , .act (.printMsg "Taking screenshot: 07_network_view.png")
  , .act (.screenshot "docs/images/07_network_view.png")
  , .condBlock listButtonSelector 0
      [ .act (.click listButtonSelector none)
      , .act (.waitForTimeout 500) ]
  , .condBlock memberButtonSelector 0
      [ .act (.click memberButtonSelector none)
      , .act (.waitForTimeout 500) ]
  , .act (.printMsg "Taking screenshot: 08_member_dialog.png")
  , .act (.screenshot "docs/images/08_member_dialog.png")
  , .condBlock addMemberSelector 0
      [ .act (.click addMemberSelector none)
      , .act (.waitForTimeout 300)
      , .condBlock nameInputSelector 0
          [ .act (.fill nameInputSelector "田中太郎")
          , .act (.waitForTimeout 300) ] ]
  , .condBlock closeButtonsSelector 0
      [ .act (.click closeButtonsSelector (some 0))
      , .act (.waitForTimeout 300) ]
  , .condBlock statusButtonSelector 0
      [ .act (.click statusButtonSelector none)
      , .act (.waitForTimeout 500) ]
  , .act (.printMsg "Taking screenshot: 09_status_dialog.png")
  , .act (.screenshot "docs/images/09_status_dialog.png")
  , .act .closeBrowser
  , .act (.printMsg "All screenshots taken successfully!") ]

/-- Result of one invocation of the script.  `sessionReleased` records that
the `with sync_playwright()` block was exited (its `__exit__` runs on both the
normal and the exceptional path, tearing down the launched browser); on the
success path the trace additionally contains the explicit `browser.close()`
event. -/
structure RunResult where
  trace : List Event
  outcome : Except StepExecutionError Unit
  sessionReleased : Bool

/-- Run the whole script against an environment, as `main()` does: execute the
steps from an empty trace inside the `with sync_playwright()` scope. -/
def run (env : Env) : RunResult :=
  match runSteps env script [] with
  | .ok tr => ⟨tr, .ok (), true⟩
  | .error (err, tr) => ⟨tr, .error err, true⟩

/-- Process exit code of `main()` run as a script: 0 on completion, nonzero
(Python exits 1 on an uncaught exception) otherwise. -/
def exitCode (r : RunResult) : Nat :=
  match r.outcome with
  | .ok _ => 0
  | .error _ => 1

/-- The environment that behaves like `env` on counts but never throws. -/
def noFail (env : Env) : Env :=
  { env with failsWith := fun _ _ => none }

mutual

/-- All interactions a step can possibly perform (its query and every inner
action, whether or not the guard would take the block). -/
def eventsOfStep (s : Step) : List Event :=
  match s with
  | .act e => [e]
  | .condBlock sel _ inner => .query sel :: eventsOfSteps inner

/-- All interactions a list of steps can possibly perform. -/
def eventsOfSteps (steps : List Step) : List Event :=
  match steps with
  | [] => []
  | s :: rest => eventsOfStep s ++ eventsOfSteps rest

end

/-! ### Capture steps -/

/-- Is this interaction a `page.screenshot(...)` call? -/
def isShot (e : Event) : Bool :=
  match e with
  | .screenshot _ => true
  | _ => false

/-- The screenshot an unconditional step takes (conditional blocks of this
script never contain captures). -/
def shotsOfStep (s : Step) : List Event :=
  match s with
  | .act e => if isShot e then [e] else []
  | .condBlock _ _ _ => []

/-- The screenshots taken by the unconditional steps of a step list, in
order. -/
def shotsOfSteps (steps : List Step) : List Event :=
  match steps with
  | [] => []
  | s :: rest => shotsOfStep s ++ shotsOfSteps rest

/-- `true` when no conditional block of the step list contains a screenshot
anywhere inside it. -/
def stepsShotFreeInner (steps : List Step) : Bool :=
  match steps with
  | [] => true
  | .act _ :: rest => stepsShotFreeInner rest
  | .condBlock _ _ inner :: rest =>
    (eventsOfSteps inner).all (fun e => !isShot e) && stepsShotFreeInner rest

/-- The trace of interactions one taken add-task block performs. -/
def addBlockEvents (name : String) (ms : Nat) : List Event :=
  [ .query addButtonSelector, .click addButtonSelector none, .waitForTimeout 300,
    .keyType name, .press "Enter", .waitForTimeout ms ]

/-- The unconditional opening of the script: everything before the first
conditional block, i.e. up to and including the first capture. -/
def firstSevenEvents : List Event :=
  [ .launchBrowser, .newPage 1280 800, .goto "http://localhost:1420",
    .waitForLoadState "networkidle", .sleep 1,
    .printMsg "Taking screenshot: 01_empty_list_view.png",
    .screenshot "docs/images/01_empty_list_view.png" ]

/-- The trace at which the script queries the add-task button for its first
add attempt (assuming nothing threw so far). -/
def addAttemptTrace1 : List Event := firstSevenEvents

/-- Trace at the second add attempt, when the first attempt found the
button. -/
def addAttemptTrace2 : List Event :=
  addAttemptTrace1 ++ addBlockEvents "ウェブサイトリニューアル" 500

/-- Trace at the third add attempt. -/
def addAttemptTrace3 : List Event :=
  addAttemptTrace2 ++ addBlockEvents "企画・設計フェーズ" 300

/-- Trace at the fourth add attempt. -/
def addAttemptTrace4 : List Event :=
  addAttemptTrace3 ++ addBlockEvents "デザイン制作" 300

/-- Trace at the fifth add attempt. -/
def addAttemptTrace5 : List Event :=
  addAttemptTrace4 ++ addBlockEvents "開発・実装" 300

/-- Trace at the sixth add attempt. -/
def addAttemptTrace6 : List Event :=
  addAttemptTrace5 ++ addBlockEvents "テスト・検証" 300

/-- Everything the script does strictly before taking the second capture,
when nothing throws and all six add attempts find the button. -/
def beforeSecondCapture : List Event :=
  addAttemptTrace6 ++ addBlockEvents "本番リリース" 300
    ++ [ .printMsg "Taking screenshot: 02_list_view_with_tasks.png" ]

/-- The trace just after the second capture in such a run. -/
def secondCaptureTrace : List Event :=
  beforeSecondCapture ++ [ .screenshot "docs/images/02_list_view_with_tasks.png" ]

/-- The script after its unconditional opening (everything from the first
add-task block on). -/
def scriptAfterFirstCapture : List Step := script.drop 7

/-- The first 15 steps of the script: everything up to and including the
second capture. -/
def scriptThroughSecondCapture : List Step := script.take 15

/-- The script from the subtask block on. -/
def scriptAfterSecondCapture : List Step := script.drop 15

/-- The script strictly after the subtask block (starting with the
hierarchy-capture print). -/
def scriptAfterSubtask : List Step := script.drop 16

/-- Is this interaction one of the script's UI interactions (click, keyboard
input, key press, fill)? -/
def isInteraction (e : Event) : Bool :=
  match e with
  | .click _ _ => true
  | .keyType _ => true
  | .press _ => true
  | .fill _ _ => true
  | _ => false

/-- The inputs a process invocation could in principle carry: command-line
arguments, environment variables, configuration files. -/
structure ProcessInputs where
  cliArgs : List String
  envVars : List (String × String)
  configFiles : List (String × String)

/-- `main()` invoked as a process.  The source never reads `sys.argv`,
`os.environ`, or any configuration file, so the result is a function of the
page environment alone; the process inputs are accepted and ignored exactly
as the script ignores them. -/
def runWithInputs (_inputs : ProcessInputs) (env : Env) : RunResult := run env

/-! ### Witness environments -/

/-- Page oracle on which every selector matches nothing and nothing throws. -/
def envAllZero : Env := ⟨fun _ _ => 0, fun _ _ => none⟩

/-- Page oracle on which every selector matches exactly one element and
nothing throws. -/
def envAllOne : Env := ⟨fun _ _ => 1, fun _ _ => none⟩

/-- Page oracle on which the navigation call throws (server not running) and
everything else succeeds. -/
def envGotoFails : Env :=
  ⟨fun _ _ => 0, fun _ e =>
    match e with
    | .goto _ => some "net::ERR_CONNECTION_REFUSED"
    | _ => none⟩

/-- Page oracle on which waiting for network idle times out and everything
else succeeds. -/
def envLoadStateFails : Env :=
  ⟨fun _ _ => 0, fun _ e =>
    match e with
    | .waitForLoadState _ => some "Timeout 30000ms exceeded."
    | _ => none⟩

/-! ### Basic interpreter lemmas -/

mutual

theorem runStep_mono (env : Env) (s : Step) (tr : List Event) :
    tr <+: observedTrace (runStep env s tr) := by
  cases s with
  | act e =>
    cases h : env.failsWith tr e <;>
      simp [runStep, observedTrace, h]
  | condBlock sel k inner =>
    cases h : env.failsWith tr (.query sel) with
    | some c => simp [runStep, observedTrace, h]
    | none =>
      by_cases hc : env.count tr sel > k
      · have hrec := runSteps_mono env inner (tr ++ [.query sel])
        simpa [runStep, h, hc] using
          (List.prefix_append tr [Event.query sel]).trans hrec
      · simp [runStep, observedTrace, h, hc]

theorem runSteps_mono (env : Env) (steps : List Step) (tr : List Event) :
    tr <+: observedTrace (runSteps env steps tr) := by
  cases steps with
  | nil => simp [runSteps, observedTrace]
  | cons s rest =>
    have h1 := runStep_mono env s tr
    cases hr : runStep env s tr with
    | error e =>
      rw [hr] at h1
      simpa [runSteps, observedTrace, hr] using h1
    | ok tr2 =>
      have h2 := runSteps_mono env rest tr2
      have h1' : tr <+: tr2 := by simpa [observedTrace, hr] using h1
      simpa [runSteps, hr] using h1'.trans h2

end

theorem runSteps_append (env : Env) (s₁ s₂ : List Step) (tr : List Event) :
    runSteps env (s₁ ++ s₂) tr =
      match runSteps env s₁ tr with
      | .error e => .error e
      | .ok tr2 => runSteps env s₂ tr2 := by
  induction s₁ generalizing tr with
  | nil => simp [runSteps]
  | cons s rest ih =>
    cases hr : runStep env s tr with
    | error e => simp [runSteps, hr]
    | ok tr2 => simp [runSteps, hr, ih]

mutual

theorem runStep_events (env : Env) (s : Step) (tr : List Event) :
    ∃ Δ, observedTrace (runStep env s tr) = tr ++ Δ ∧
      ∀ e ∈ Δ, e ∈ eventsOfStep s := by
  cases s with
  | act e =>
    cases h : env.failsWith tr e with
    | some c => exact ⟨[], by simp [runStep, observedTrace, h]⟩
    | none => exact ⟨[e], by simp [runStep, observedTrace, h, eventsOfStep]⟩
  | condBlock sel k inner =>
    cases h : env.failsWith tr (.query sel) with
    | some c => exact ⟨[], by simp [runStep, observedTrace, h]⟩
    | none =>
      by_cases hc : env.count tr sel > k
      · obtain ⟨Δ, hΔ, hmem⟩ := runSteps_events env inner (tr ++ [.query sel])
        refine ⟨.query sel :: Δ, ?_, ?_⟩
        · simp only [runStep, h, hc, if_pos]
          rw [hΔ]
          simp
        · intro x hx
          cases hx with
          | head => simp [eventsOfStep]
          | tail _ hx =>
            simp only [eventsOfStep, List.mem_cons]
            exact Or.inr (hmem x hx)
      · exact ⟨[.query sel], by simp [runStep, observedTrace, h, hc, eventsOfStep]⟩

theorem runSteps_events (env : Env) (steps : List Step) (tr : List Event) :
    ∃ Δ, observedTrace (runSteps env steps tr) = tr ++ Δ ∧
      ∀ e ∈ Δ, e ∈ eventsOfSteps steps := by
  cases steps with
  | nil => exact ⟨[], by simp [runSteps, observedTrace]⟩
  | cons s rest =>
    obtain ⟨Δ₁, hΔ₁, hmem₁⟩ := runStep_events env s tr
    cases hr : runStep env s tr with
    | error e =>
      rw [hr] at hΔ₁
      refine ⟨Δ₁, ?_, ?_⟩
      · simpa [runSteps, hr, observedTrace] using hΔ₁
      · intro x hx
        simp only [eventsOfSteps, List.mem_append]
        exact Or.inl (hmem₁ x hx)
    | ok tr2 =>
      rw [hr] at hΔ₁
      simp only [observedTrace] at hΔ₁
      obtain ⟨Δ₂, hΔ₂, hmem₂⟩ := runSteps_events env rest tr2
      refine ⟨Δ₁ ++ Δ₂, ?_, ?_⟩
      · simp only [runSteps, hr]
        rw [hΔ₂, hΔ₁, List.append_assoc]
      · intro x hx
        simp only [eventsOfSteps, List.mem_append]
        rcases List.mem_append.mp hx with h' | h'
        · exact Or.inl (hmem₁ x h')
        · exact Or.inr (hmem₂ x h')

end

mutual

theorem runStep_noFail_ok (env : Env) (hF : ∀ tr e, env.failsWith tr e = none)
    (s : Step) (tr : List Event) : ∃ tr2, runStep env s tr = .ok tr2 := by
  cases s with
  | act e => exact ⟨tr ++ [e], by simp [runStep, hF]⟩
  | condBlock sel k inner =>
    by_cases hc : env.count tr sel > k
    · obtain ⟨tr2, h2⟩ := runSteps_noFail_ok env hF inner (tr ++ [.query sel])
      exact ⟨tr2, by simp [runStep, hF, hc, h2]⟩
    · exact ⟨tr ++ [.query sel], by simp [runStep, hF, hc]⟩

theorem runSteps_noFail_ok (env : Env) (hF : ∀ tr e, env.failsWith tr e = none)
    (steps : List Step) (tr : List Event) : ∃ tr2, runSteps env steps tr = .ok tr2 := by
  cases steps with
  | nil => exact ⟨tr, by simp [runSteps]⟩
  | cons s rest =>
    obtain ⟨tr1, h1⟩ := runStep_noFail_ok env hF s tr
    obtain ⟨tr2, h2⟩ := runSteps_noFail_ok env hF rest tr1
    exact ⟨tr2, by simp [runSteps, h1, h2]⟩

end

mutual

theorem runStep_ok_agree (env : Env) (s : Step) (tr tr2 : List Event)
    (h : runStep env s tr = .ok tr2) : runStep (noFail env) s tr = .ok tr2 := by
  cases s with
  | act e =>
    cases hf : env.failsWith tr e with
    | some c => simp [runStep, hf] at h
    | none =>
      simp only [runStep, hf] at h
      simpa [runStep, noFail] using h
  | condBlock sel k inner =>
    cases hf : env.failsWith tr (.query sel) with
    | some c => simp [runStep, hf] at h
    | none =>
      by_cases hc : env.count tr sel > k
      · simp only [runStep, hf, hc, if_pos] at h
        have := runSteps_ok_agree env inner (tr ++ [.query sel]) tr2 h
        simpa [runStep, noFail, hc] using this
      · simp only [runStep, hf, hc, if_neg] at h
        simpa [runStep, noFail, hc] using h

theorem runSteps_ok_agree (env : Env) (steps : List Step) (tr tr2 : List Event)
    (h : runSteps env steps tr = .ok tr2) : runSteps (noFail env) steps tr = .ok tr2 := by
  cases steps with
  | nil => simpa [runSteps] using h
  | cons s rest =>
    cases hr : runStep env s tr with
    | error e => simp [runSteps, hr] at h
    | ok tr1 =>
      simp only [runSteps, hr] at h
      have h1 := runStep_ok_agree env s tr tr1 hr
      have h2 := runSteps_ok_agree env rest tr1 tr2 h
      simp [runSteps, h1, h2]

end

mutual

theorem runStep_error_anatomy (env : Env) (s : Step) (tr : List Event)
    (err : StepExecutionError) (tr' : List Event)
    (h : runStep env s tr = .error (err, tr')) :
    err.stepIndex = tr'.length ∧ env.failsWith tr' err.event = some err.cause := by
  cases s with
  | act e =>
    cases hf : env.failsWith tr e with
    | some c =>
      simp only [runStep, hf, Except.error.injEq, Prod.mk.injEq] at h
      obtain ⟨h1, h2⟩ := h
      subst h2
      simp [← h1, hf]
    | none => simp [runStep, hf] at h
  | condBlock sel k inner =>
    cases hf : env.failsWith tr (.query sel) with
    | some c =>
      simp only [runStep, hf, Except.error.injEq, Prod.mk.injEq] at h
      obtain ⟨h1, h2⟩ := h
      subst h2
      simp [← h1, hf]
    | none =>
      by_cases hc : env.count tr sel > k
      · simp only [runStep, hf, hc, if_pos] at h
        exact runSteps_error_anatomy env inner (tr ++ [.query sel]) err tr' h
      · simp [runStep, hf, hc] at h

theorem runSteps_error_anatomy (env : Env) (steps : List Step) (tr : List Event)
    (err : StepExecutionError) (tr' : List Event)
    (h : runSteps env steps tr = .error (err, tr')) :
    err.stepIndex = tr'.length ∧ env.failsWith tr' err.event = some err.cause := by
  cases steps with
  | nil => simp [runSteps] at h
  | cons s rest =>
    cases hr : runStep env s tr with
    | error e =>
      simp only [runSteps, hr, Except.error.injEq] at h
      exact runStep_error_anatomy env s tr err tr' (by rw [hr, h])
    | ok tr1 =>
      simp only [runSteps, hr] at h
      exact runSteps_error_anatomy env rest tr1 err tr' h

end

mutual

theorem runStep_sim (env : Env) (s : Step) (tr : List Event)
    (err : StepExecutionError) (tr' : List Event)
    (h : runStep env s tr = .error (err, tr')) :
    tr' <+: observedTrace (runStep (noFail env) s tr) := by
  cases s with
  | act e =>
    cases hf : env.failsWith tr e with
    | some c =>
      simp only [runStep, hf, Except.error.injEq, Prod.mk.injEq] at h
      obtain ⟨-, h2⟩ := h
      subst h2
      simp [runStep, noFail, observedTrace]
    | none => simp [runStep, hf] at h
  | condBlock sel k inner =>
    cases hf : env.failsWith tr (.query sel) with
    | some c =>
      simp only [runStep, hf, Except.error.injEq, Prod.mk.injEq] at h
      obtain ⟨-, h2⟩ := h
      subst h2
      by_cases hc : env.count tr sel > k
      · have hmono := runSteps_mono (noFail env) inner (tr ++ [.query sel])
        have hpre : tr <+: tr ++ [Event.query sel] := List.prefix_append _ _
        simpa [runStep, noFail, hc] using hpre.trans hmono
      · simp [runStep, noFail, observedTrace, hc]
    | none =>
      by_cases hc : env.count tr sel > k
      · simp only [runStep, hf, hc, if_pos] at h
        have := runStep_sim_steps env inner (tr ++ [.query sel]) err tr' h
        simpa [runStep, noFail, hc] using this
      · simp [runStep, hf, hc] at h

theorem runStep_sim_steps (env : Env) (steps : List Step) (tr : List Event)
    (err : StepExecutionError) (tr' : List Event)
    (h : runSteps env steps tr = .error (err, tr')) :
    tr' <+: observedTrace (runSteps (noFail env) steps tr) := by
  cases steps with
  | nil => simp [runSteps] at h
  | cons s rest =>
    cases hr : runStep env s tr with
    | error e =>
      simp only [runSteps, hr, Except.error.injEq] at h
      have h1 : runStep env s tr = .error (err, tr') := by rw [hr, h]
      have hhead := runStep_sim env s tr err tr' h1
      obtain ⟨trN, hN⟩ := runStep_noFail_ok (noFail env)
        (fun _ _ => rfl) s tr
      rw [hN] at hhead
      simp only [observedTrace] at hhead
      have htail := runSteps_mono (noFail env) rest trN
      simpa [runSteps, hN] using hhead.trans htail
    | ok tr1 =>
      simp only [runSteps, hr] at h
      have h1 := runStep_ok_agree env s tr tr1 hr
      have := runStep_sim_steps env rest tr1 err tr' h
      simpa [runSteps, h1] using this

end



theorem runStep_shots (env : Env) (s : Step) (tr tr2 : List Event)
    (hfree : stepsShotFreeInner [s] = true)
    (h : runStep env s tr = .ok tr2) :
    tr2.filter isShot = tr.filter isShot ++ shotsOfStep s := by
  cases s with
  | act e =>
    cases hf : env.failsWith tr e with
    | some c => simp [runStep, hf] at h
    | none =>
      simp only [runStep, hf, Except.ok.injEq] at h
      subst h
      simp [shotsOfStep, List.filter_append]
      by_cases he : isShot e <;> simp [he]
  | condBlock sel k inner =>
    cases hf : env.failsWith tr (.query sel) with
    | some c => simp [runStep, hf] at h
    | none =>
      by_cases hc : env.count tr sel > k
      · simp only [runStep, hf, hc, if_pos] at h
        obtain ⟨Δ, hΔ, hmem⟩ := runSteps_events env inner (tr ++ [.query sel])
        rw [h] at hΔ
        simp only [observedTrace] at hΔ
        subst hΔ
        have hΔfree : Δ.filter isShot = [] := by
          rw [List.filter_eq_nil_iff]
          intro x hx
          have hx' := hmem x hx
          simp only [stepsShotFreeInner, Bool.and_eq_true, List.all_eq_true] at hfree
          have := hfree.1 x hx'
          simpa using this
        simp [shotsOfStep, List.filter_append, hΔfree, isShot]
      · simp only [runStep, hf, if_neg hc, Except.ok.injEq] at h
        subst h
        simp [shotsOfStep, List.filter_append, isShot]

theorem runSteps_shots (env : Env) (steps : List Step) (tr tr2 : List Event)
    (hfree : stepsShotFreeInner steps = true)
    (h : runSteps env steps tr = .ok tr2) :
    tr2.filter isShot = tr.filter isShot ++ shotsOfSteps steps := by
  induction steps generalizing tr with
  | nil =>
    simp only [runSteps, Except.ok.injEq] at h
    subst h
    simp [shotsOfSteps]
  | cons s rest ih =>
    cases hr : runStep env s tr with
    | error e => simp [runSteps, hr] at h
    | ok tr1 =>
      simp only [runSteps, hr] at h
      have hfree1 : stepsShotFreeInner [s] = true := by
        cases s <;> simp_all [stepsShotFreeInner]
      have hfree2 : stepsShotFreeInner rest = true := by
        cases s <;> simp_all [stepsShotFreeInner]
      have h1 := runStep_shots env s tr tr1 hfree1 hr
      have h2 := ih tr1 hfree2 h
      rw [h2, h1, List.append_assoc]
      rfl

/-- Every event of an unconditional step of a completed step list occurs in
the final trace. -/
theorem runSteps_ok_top_act (env : Env) (steps : List Step) (tr tr2 : List Event)
    (h : runSteps env steps tr = .ok tr2) (e : Event) (he : Step.act e ∈ steps) :
    e ∈ tr2 := by
  induction steps generalizing tr with
  | nil => simp at he
  | cons s rest ih =>
    cases hr : runStep env s tr with
    | error e' => simp [runSteps, hr] at h
    | ok tr1 =>
      simp only [runSteps, hr] at h
      cases he with
      | head =>
        cases hf : env.failsWith tr e with
        | some c => simp [runStep, hf] at hr
        | none =>
          simp only [runStep, hf, Except.ok.injEq] at hr
          subst hr
          have hmono := runSteps_mono env rest (tr ++ [e])
          rw [h] at hmono
          simp only [observedTrace] at hmono
          exact hmono.subset (by simp)
      | tail _ he => exact ih tr1 h he

/-- `takeWhile p` over a list of the shape `good ++ bad :: rest` returns
exactly `good` when `p` holds on `good` and fails at `bad`. -/
theorem takeWhile_middle (p : Event → Bool) (l₁ : List Event) (x : Event)
    (l₂ : List Event) (h : l₁.all p = true) (hx : p x = false) :
    (l₁ ++ x :: l₂).takeWhile p = l₁ := by
  induction l₁ with
  | nil => simp [List.takeWhile_cons, hx]
  | cons a l ih =>
    simp only [List.all_cons, Bool.and_eq_true] at h
    simp [List.takeWhile_cons, h.1, ih h.2]

theorem mem_of_mem_takeWhile (p : Event → Bool) (l : List Event) (x : Event)
    (h : x ∈ l.takeWhile p) : x ∈ l := by
  induction l with
  | nil => simp at h
  | cons a t ih =>
    by_cases hp : p a
    · rw [List.takeWhile_cons, if_pos hp] at h
      cases h with
      | head => exact List.mem_cons_self _ _
      | tail _ h => exact List.mem_cons_of_mem _ (ih h)
    · rw [List.takeWhile_cons, if_neg hp] at h
      simp at h

/-! ### Named step and trace fragments of the script -/

/-- A conditional block whose query succeeds but whose selector count does not
exceed the threshold performs the query and nothing else, and the run
continues with the next step. -/
theorem runSteps_condBlock_skip (env : Env) (sel : String) (k : Nat)
    (inner rest : List Step) (tr : List Event)
    (hq : env.failsWith tr (.query sel) = none)
    (hc : ¬ env.count tr sel > k) :
    runSteps env (Step.condBlock sel k inner :: rest) tr
      = runSteps env rest (tr ++ [Event.query sel]) := by
  simp [runSteps, runStep, hq, hc]

/-- Unfolding step: an unconditional action that does not throw appends its
event and the run continues. -/
theorem runSteps_cons_act (env : Env) (e : Event) (rest : List Step)
    (tr : List Event) (hf : env.failsWith tr e = none) :
    runSteps env (.act e :: rest) tr = runSteps env rest (tr ++ [e]) := by
  simp [runSteps, runStep, hf]



/-- When nothing throws and the add-task button is present, an add-task block
performs exactly its click/type/Enter sequence. -/
theorem addTaskBlock_taken (env : Env) (hF : ∀ tr e, env.failsWith tr e = none)
    (name : String) (ms : Nat) (rest : List Step) (tr : List Event)
    (h : 0 < env.count tr addButtonSelector) :
    runSteps env (addTaskBlock name ms :: rest) tr
      = runSteps env rest (tr ++ addBlockEvents name ms) := by
  simp [runSteps, runStep, addTaskBlock, hF, h, addBlockEvents]



/-- Running a list of plain actions: the observed trace extends the starting
trace by some prefix of the action list (everything up to the first throwing
action, or all of it). -/
theorem runSteps_acts (env : Env) (es : List Event) (tr : List Event) :
    ∃ l, l <+: es ∧
      observedTrace (runSteps env (es.map .act) tr) = tr ++ l := by
  induction es generalizing tr with
  | nil => exact ⟨[], List.nil_prefix, by simp [runSteps, observedTrace]⟩
  | cons e es ih =>
    cases hf : env.failsWith tr e with
    | some c =>
      refine ⟨[], List.nil_prefix, ?_⟩
      simp [runSteps, runStep, hf, observedTrace]
    | none =>
      obtain ⟨l, hl, hobs⟩ := ih (tr ++ [e])
      refine ⟨e :: l, ?_, ?_⟩
      · obtain ⟨t, ht⟩ := hl
        exact ⟨t, by rw [List.cons_append, ht]⟩
      · rw [List.map_cons, runSteps_cons_act env e _ tr hf, hobs,
          List.append_assoc]
        rfl

/-- Running a list of plain actions to completion performs all of them. -/
theorem runSteps_acts_ok (env : Env) (es : List Event) (tr tr2 : List Event)
    (h : runSteps env (es.map .act) tr = .ok tr2) : tr2 = tr ++ es := by
  induction es generalizing tr with
  | nil => simp only [List.map_nil, runSteps, Except.ok.injEq] at h; simp [← h]
  | cons e es ih =>
    cases hf : env.failsWith tr e with
    | some c => simp [runSteps, runStep, hf] at h
    | none =>
      rw [List.map_cons, runSteps_cons_act env e _ tr hf] at h
      rw [ih (tr ++ [e]) h, List.append_assoc]
      rfl

/-- The trace of a run is the observed trace of interpreting the script. -/
theorem run_trace_def (env : Env) :
    (run env).trace = observedTrace (runSteps env script []) := by
  cases h : runSteps env script [] with
  | ok tr => simp [run, observedTrace, h]
  | error e => cases e; simp [run, observedTrace, h]

/-! ### Claims -/

/-- C1: For every conditional step (a locate-and-act block guarded by an
existence check), if the target selector matches zero elements on the page,
the step performs no action at all (only the count query is made) and the run
proceeds to the next step without raising any error. -/
theorem conditional_zero_matches_noop (env : Env) (sel : String) (k : Nat)
    (inner rest : List Step) (tr : List Event)
    (hzero : env.count tr sel = 0)
    (hq : env.failsWith tr (.query sel) = none) :
    runSteps env (Step.condBlock sel k inner :: rest) tr
      = runSteps env rest (tr ++ [Event.query sel]) :=
  runSteps_condBlock_skip env sel k inner rest tr hq (by omega)

/-- Witness for C1: on a page where the add-task button selector matches
nothing, the first add-task block of the script is interpreted as exactly its
query and nothing else. -/
theorem conditional_zero_matches_noop_witness :
    envAllZero.count [] addButtonSelector = 0 ∧
    envAllZero.failsWith [] (.query addButtonSelector) = none ∧
    runSteps envAllZero [addTaskBlock "ウェブサイトリニューアル" 500] []
      = runSteps envAllZero [] [Event.query addButtonSelector] :=
  ⟨rfl, rfl,
    conditional_zero_matches_noop envAllZero addButtonSelector 0
      [ .act (.click addButtonSelector none), .act (.waitForTimeout 300),
        .act (.keyType "ウェブサイトリニューアル"), .act (.press "Enter"),
        .act (.waitForTimeout 500) ] [] [] rfl rfl⟩

/-- C7: Every run that completes performs exactly 9 capture steps and
produces the same fixed, ordered list of artifact file names; captures are
unconditional steps of the script and never skipped. -/
theorem completed_run_fixed_captures (env : Env)
    (h : (run env).outcome = .ok ()) :
    (run env).trace.filter isShot =
      [ Event.screenshot "docs/images/01_empty_list_view.png",
        Event.screenshot "docs/images/02_list_view_with_tasks.png",
        Event.screenshot "docs/images/03_list_view_hierarchy.png",
        Event.screenshot "docs/images/04_task_detail_panel.png",
        Event.screenshot "docs/images/05_gantt_view.png",
        Event.screenshot "docs/images/06_kanban_view.png",
        Event.screenshot "docs/images/07_network_view.png",
        Event.screenshot "docs/images/08_member_dialog.png",
        Event.screenshot "docs/images/09_status_dialog.png" ] := by
  cases hrs : runSteps env script [] with
  | error e =>
    obtain ⟨err, tr⟩ := e
    simp [run, hrs] at h
  | ok tr =>
    have htr : (run env).trace = tr := by simp [run, hrs]
    rw [htr]
    have hfree : stepsShotFreeInner script = true := by rfl
    rw [runSteps_shots env script [] tr hfree hrs]
    rfl

/-- Witness for C7: a completed run on a page where every selector matches
nothing still produces the nine captures in order. -/
theorem completed_run_fixed_captures_witness :
    (run envAllZero).outcome = .ok () ∧
    (run envAllZero).trace.filter isShot =
      [ Event.screenshot "docs/images/01_empty_list_view.png",
        Event.screenshot "docs/images/02_list_view_with_tasks.png",
        Event.screenshot "docs/images/03_list_view_hierarchy.png",
        Event.screenshot "docs/images/04_task_detail_panel.png",
        Event.screenshot "docs/images/05_gantt_view.png",
        Event.screenshot "docs/images/06_kanban_view.png",
        Event.screenshot "docs/images/07_network_view.png",
        Event.screenshot "docs/images/08_member_dialog.png",
        Event.screenshot "docs/images/09_status_dialog.png" ] :=
  ⟨rfl, completed_run_fixed_captures envAllZero rfl⟩

/-- C8: The browser session is created at the start of the run (the first
performed interaction is always the launch) and is released in every outcome:
the `with sync_playwright()` scope is exited on completion and on the first
unhandled failure alike, and a completed run additionally performs the
explicit `browser.close()`. -/
theorem session_release_in_every_outcome (env : Env) :
    (run env).sessionReleased = true ∧
    ((run env).trace ≠ [] → (run env).trace.head? = some Event.launchBrowser) ∧
    ((run env).outcome = .ok () → Event.closeBrowser ∈ (run env).trace) := by
  refine ⟨?_, ?_, ?_⟩
  · cases hrs : runSteps env script [] with
    | error e => obtain ⟨err, tr⟩ := e; simp [run, hrs]
    | ok tr => simp [run, hrs]
  · intro hne
    rw [run_trace_def] at hne ⊢
    cases hf : env.failsWith [] Event.launchBrowser with
    | some c =>
      have hrs : runSteps env script []
          = .error (⟨0, Event.launchBrowser, c⟩, []) := by
        rw [show script = Step.act Event.launchBrowser :: script.tail from rfl]
        simp [runSteps, runStep, hf]
      rw [hrs] at hne
      simp [observedTrace] at hne
    | none =>
      have hstep : runSteps env script []
          = runSteps env script.tail [Event.launchBrowser] := by
        rw [show script = Step.act Event.launchBrowser :: script.tail from rfl,
          runSteps_cons_act env _ _ _ hf]
        rfl
      rw [hstep]
      obtain ⟨t, ht⟩ := runSteps_mono env script.tail [Event.launchBrowser]
      rw [← ht]
      rfl
  · intro hok
    cases hrs : runSteps env script [] with
    | error e => obtain ⟨err, tr⟩ := e; simp [run, hrs] at hok
    | ok tr =>
      have htr : (run env).trace = tr := by simp [run, hrs]
      rw [htr]
      exact runSteps_ok_top_act env script [] tr hrs .closeBrowser
        (by simp [script, addTaskBlock, subtaskBlock])

/-- Witness for C8: in a completed concrete run the session fields are as the
claim states. -/
theorem session_release_in_every_outcome_witness :
    (run envAllOne).sessionReleased = true ∧
    (run envAllOne).trace.head? = some Event.launchBrowser ∧
    Event.closeBrowser ∈ (run envAllOne).trace :=
  ⟨(session_release_in_every_outcome envAllOne).1,
    (session_release_in_every_outcome envAllOne).2.1 (by decide),
    (session_release_in_every_outcome envAllOne).2.2 rfl⟩

/-- C9: The run is a function of the page environment alone: any two
invocations that differ only in command-line arguments, environment
variables, or configuration files attempt the same step sequence and produce
the same trace (hence the same artifact paths); every parameter is a literal
in the script. -/
theorem run_ignores_process_inputs (i₁ i₂ : ProcessInputs) (env : Env) :
    runWithInputs i₁ env = runWithInputs i₂ env ∧
    (runWithInputs i₁ env).trace = (runWithInputs i₂ env).trace :=
  ⟨rfl, rfl⟩

/-- C10: The subtask block is guarded by `count() > 1`, not mere existence:
it is the 16th step of the script, and when its selector matches exactly one
element the whole block is skipped (only the query happens). -/
theorem subtask_block_needs_more_than_one (env : Env) (tr : List Event)
    (rest : List Step)
    (hone : env.count tr subtaskButtonsSelector = 1)
    (hq : env.failsWith tr (.query subtaskButtonsSelector) = none) :
    script[15]? = some subtaskBlock ∧
    subtaskBlock = Step.condBlock subtaskButtonsSelector 1
      [ .act (.click subtaskButtonsSelector (some 1))
      , .act (.waitForTimeout 300)
      , .act (.keyType "要件定義")
      , .act (.press "Enter")
      , .act (.waitForTimeout 300)
      , .act (.keyType "ワイヤーフレーム作成")
      , .act (.press "Enter")
      , .act (.waitForTimeout 300)
      , .act (.keyType "サイトマップ作成")
      , .act (.press "Escape")
      , .act (.waitForTimeout 500) ] ∧
    runSteps env (subtaskBlock :: rest) tr
      = runSteps env rest (tr ++ [Event.query subtaskButtonsSelector]) := by
  refine ⟨rfl, rfl, ?_⟩
  exact runSteps_condBlock_skip env _ 1 _ rest tr hq (by omega)

/-- C2: If any step's underlying browser action throws, the run terminates
immediately at that step: the performed trace ends exactly at the failure
point, the error propagates to the caller unchanged, the process exits
non-zero, and the performed trace is a prefix of what the same page without
the failure would have run — so no subsequent step executes and nothing is
retried. -/
theorem required_step_failure_aborts_run (env : Env)
    (err : StepExecutionError) (tr : List Event)
    (h : runSteps env script [] = .error (err, tr)) :
    (run env).outcome = .error err ∧
    (run env).trace = tr ∧
    err.stepIndex = tr.length ∧
    exitCode (run env) = 1 ∧
    tr <+: observedTrace (runSteps (noFail env) script []) := by
  have h1 : (run env).outcome = .error err := by simp [run, h]
  refine ⟨h1, by simp [run, h],
    (runSteps_error_anatomy env script [] err tr h).1, ?_, ?_⟩
  · simp [exitCode, h1]
  · exact runStep_sim_steps env script [] err tr h

/-- Witness for C2: when navigation throws (server not running), the run
stops after launch and page creation, exits non-zero, and its trace is a
prefix of the failure-free run. -/
theorem required_step_failure_aborts_run_witness :
    runSteps envGotoFails script []
      = .error (⟨2, .goto "http://localhost:1420", "net::ERR_CONNECTION_REFUSED"⟩,
          [Event.launchBrowser, Event.newPage 1280 800]) ∧
    (run envGotoFails).outcome
      = .error ⟨2, .goto "http://localhost:1420", "net::ERR_CONNECTION_REFUSED"⟩ ∧
    (run envGotoFails).trace = [Event.launchBrowser, Event.newPage 1280 800] ∧
    exitCode (run envGotoFails) = 1 ∧
    [Event.launchBrowser, Event.newPage 1280 800]
      <+: observedTrace (runSteps (noFail envGotoFails) script []) := by
  obtain ⟨a, b, c, d, e⟩ := required_step_failure_aborts_run envGotoFails
    ⟨2, .goto "http://localhost:1420", "net::ERR_CONNECTION_REFUSED"⟩
    [Event.launchBrowser, Event.newPage 1280 800] rfl
  exact ⟨rfl, a, b, d, e⟩

/-- C3: A failed run surfaces a `StepExecutionError` whose step index is
exactly the number of interactions performed before the failure and whose
cause is the exception the environment raised for the attempted interaction
at that very point. -/
theorem failed_run_reports_step_and_cause (env : Env)
    (err : StepExecutionError) (tr : List Event)
    (h : runSteps env script [] = .error (err, tr)) :
    (run env).outcome = .error err ∧
    err.stepIndex = (run env).trace.length ∧
    env.failsWith (run env).trace err.event = some err.cause := by
  have h2 : (run env).trace = tr := by simp [run, h]
  obtain ⟨ha, hb⟩ := runSteps_error_anatomy env script [] err tr h
  exact ⟨by simp [run, h], by rw [h2]; exact ha, by rw [h2]; exact hb⟩

/-- Witness for C3: when waiting for network idle times out, the error
carries step index 3 (after launch, page creation and navigation) and the
timeout cause. -/
theorem failed_run_reports_step_and_cause_witness :
    runSteps envLoadStateFails script []
      = .error (⟨3, .waitForLoadState "networkidle", "Timeout 30000ms exceeded."⟩,
          [Event.launchBrowser, Event.newPage 1280 800,
           Event.goto "http://localhost:1420"]) ∧
    (run envLoadStateFails).outcome
      = .error ⟨3, .waitForLoadState "networkidle", "Timeout 30000ms exceeded."⟩ ∧
    (3 : Nat) = (run envLoadStateFails).trace.length ∧
    envLoadStateFails.failsWith (run envLoadStateFails).trace
      (.waitForLoadState "networkidle") = some "Timeout 30000ms exceeded." :=
  ⟨rfl, failed_run_reports_step_and_cause envLoadStateFails
    ⟨3, .waitForLoadState "networkidle", "Timeout 30000ms exceeded."⟩
    [Event.launchBrowser, Event.newPage 1280 800,
     Event.goto "http://localhost:1420"] rfl⟩

/-- C6: In every run (whatever the page reports and whatever throws), the
first capture strictly precedes every UI interaction: the portion of the
trace before the first-capture event contains no click, keyboard input, key
press, or fill. -/
theorem first_capture_before_interactions (env : Env) :
    (((run env).trace.takeWhile
        (fun e => !(e == Event.screenshot "docs/images/01_empty_list_view.png"))).all
      (fun e => !isInteraction e)) = true := by
  rw [run_trace_def,
    show script = firstSevenEvents.map .act ++ scriptAfterFirstCapture from rfl,
    runSteps_append]
  obtain ⟨l, hl, hobs⟩ := runSteps_acts env firstSevenEvents []
  cases h7 : runSteps env (firstSevenEvents.map .act) [] with
  | error e =>
    obtain ⟨err, tr⟩ := e
    rw [h7] at hobs
    simp only [observedTrace, List.nil_append] at hobs ⊢
    subst hobs
    rw [List.all_eq_true]
    intro x hx
    have hmem : x ∈ firstSevenEvents :=
      hl.subset (mem_of_mem_takeWhile _ _ _ hx)
    have hall : firstSevenEvents.all (fun e => !isInteraction e) = true := by decide
    exact List.all_eq_true.mp hall x hmem
  | ok tr2 =>
    have htr2 : tr2 = firstSevenEvents := by
      have := runSteps_acts_ok env firstSevenEvents [] tr2 h7
      simpa using this
    subst htr2
    obtain ⟨Δ, hΔ, -⟩ := runSteps_events env scriptAfterFirstCapture firstSevenEvents
    rw [hΔ,
      show firstSevenEvents ++ Δ
        = [ Event.launchBrowser, Event.newPage 1280 800,
            Event.goto "http://localhost:1420",
            Event.waitForLoadState "networkidle", Event.sleep 1,
            Event.printMsg "Taking screenshot: 01_empty_list_view.png" ]
          ++ Event.screenshot "docs/images/01_empty_list_view.png" :: Δ
        from by simp [firstSevenEvents],
      takeWhile_middle _ _ _ _ (by decide) (by decide)]
    decide

/-- C4: In a run where nothing throws and the add-task button is found at
each of the six add attempts, the portion of the trace strictly before the
second capture contains exactly six add-task clicks, exactly the six task
names typed in order, and exactly six Enter presses. -/
theorem six_adds_before_second_capture (env : Env)
    (hF : ∀ tr e, env.failsWith tr e = none)
    (h1 : 0 < env.count addAttemptTrace1 addButtonSelector)
    (h2 : 0 < env.count addAttemptTrace2 addButtonSelector)
    (h3 : 0 < env.count addAttemptTrace3 addButtonSelector)
    (h4 : 0 < env.count addAttemptTrace4 addButtonSelector)
    (h5 : 0 < env.count addAttemptTrace5 addButtonSelector)
    (h6 : 0 < env.count addAttemptTrace6 addButtonSelector) :
    ∃ rest, (run env).trace
        = beforeSecondCapture
            ++ Event.screenshot "docs/images/02_list_view_with_tasks.png" :: rest ∧
      beforeSecondCapture.count (Event.click addButtonSelector none) = 6 ∧
      beforeSecondCapture.filterMap
          (fun e => match e with | Event.keyType t => some t | _ => none)
        = [ "ウェブサイトリニューアル", "企画・設計フェーズ", "デザイン制作",
            "開発・実装", "テスト・検証", "本番リリース" ] ∧
      beforeSecondCapture.count (Event.press "Enter") = 6 := by
  have h15 : runSteps env scriptThroughSecondCapture [] = .ok secondCaptureTrace := by
    rw [show scriptThroughSecondCapture
        = Step.act Event.launchBrowser
          :: Step.act (Event.newPage 1280 800)
          :: Step.act (Event.goto "http://localhost:1420")
          :: Step.act (Event.waitForLoadState "networkidle")
          :: Step.act (Event.sleep 1)
          :: Step.act (Event.printMsg "Taking screenshot: 01_empty_list_view.png")
          :: Step.act (Event.screenshot "docs/images/01_empty_list_view.png")
          :: addTaskBlock "ウェブサイトリニューアル" 500
          :: addTaskBlock "企画・設計フェーズ" 300
          :: addTaskBlock "デザイン制作" 300
          :: addTaskBlock "開発・実装" 300
          :: addTaskBlock "テスト・検証" 300
          :: addTaskBlock "本番リリース" 300
          :: Step.act (Event.printMsg "Taking screenshot: 02_list_view_with_tasks.png")
          :: Step.act (Event.screenshot "docs/images/02_list_view_with_tasks.png")
          :: [] from rfl,
      runSteps_cons_act env _ _ _ (hF _ _),
      runSteps_cons_act env _ _ _ (hF _ _),
      runSteps_cons_act env _ _ _ (hF _ _),
      runSteps_cons_act env _ _ _ (hF _ _),
      runSteps_cons_act env _ _ _ (hF _ _),
      runSteps_cons_act env _ _ _ (hF _ _),
      runSteps_cons_act env _ _ _ (hF _ _),
      show ([] : List Event) ++ [Event.launchBrowser] ++ [Event.newPage 1280 800]
          ++ [Event.goto "http://localhost:1420"]
          ++ [Event.waitForLoadState "networkidle"] ++ [Event.sleep 1]
          ++ [Event.printMsg "Taking screenshot: 01_empty_list_view.png"]
          ++ [Event.screenshot "docs/images/01_empty_list_view.png"]
        = addAttemptTrace1 from rfl,
      addTaskBlock_taken env hF _ _ _ _ h1,
      show addAttemptTrace1 ++ addBlockEvents "ウェブサイトリニューアル" 500
        = addAttemptTrace2 from rfl,
      addTaskBlock_taken env hF _ _ _ _ h2,
      show addAttemptTrace2 ++ addBlockEvents "企画・設計フェーズ" 300
        = addAttemptTrace3 from rfl,
      addTaskBlock_taken env hF _ _ _ _ h3,
      show addAttemptTrace3 ++ addBlockEvents "デザイン制作" 300
        = addAttemptTrace4 from rfl,
      addTaskBlock_taken env hF _ _ _ _ h4,
      show addAttemptTrace4 ++ addBlockEvents "開発・実装" 300
        = addAttemptTrace5 from rfl,
      addTaskBlock_taken env hF _ _ _ _ h5,
      show addAttemptTrace5 ++ addBlockEvents "テスト・検証" 300
        = addAttemptTrace6 from rfl,
      addTaskBlock_taken env hF _ _ _ _ h6,
      runSteps_cons_act env _ _ _ (hF _ _),
      runSteps_cons_act env _ _ _ (hF _ _)]
    rfl
  obtain ⟨Δ, hΔ, -⟩ := runSteps_events env scriptAfterSecondCapture secondCaptureTrace
  refine ⟨Δ, ?_, by decide, by decide, by decide⟩
  rw [run_trace_def,
    show script = scriptThroughSecondCapture ++ scriptAfterSecondCapture from rfl,
    runSteps_append, h15]
  show observedTrace (runSteps env scriptAfterSecondCapture secondCaptureTrace)
    = beforeSecondCapture
        ++ Event.screenshot "docs/images/02_list_view_with_tasks.png" :: Δ
  rw [hΔ]
  simp [secondCaptureTrace]

/-- Witness for C4: on a page where every selector always matches exactly
one element and nothing throws, the six add interactions all happen before
the second capture. -/
theorem six_adds_before_second_capture_witness :
    (∀ tr e, envAllOne.failsWith tr e = none) ∧
    (0 < envAllOne.count addAttemptTrace1 addButtonSelector) ∧
    (∃ rest, (run envAllOne).trace
        = beforeSecondCapture
            ++ Event.screenshot "docs/images/02_list_view_with_tasks.png" :: rest ∧
      beforeSecondCapture.count (Event.click addButtonSelector none) = 6 ∧
      beforeSecondCapture.filterMap
          (fun e => match e with | Event.keyType t => some t | _ => none)
        = [ "ウェブサイトリニューアル", "企画・設計フェーズ", "デザイン制作",
            "開発・実装", "テスト・検証", "本番リリース" ] ∧
      beforeSecondCapture.count (Event.press "Enter") = 6) :=
  ⟨fun _ _ => rfl, Nat.one_pos,
    six_adds_before_second_capture envAllOne (fun _ _ => rfl)
      Nat.one_pos Nat.one_pos Nat.one_pos Nat.one_pos Nat.one_pos Nat.one_pos⟩

/-- C5: When the subtask-add selector matches zero elements (and no browser
call throws), the run completes, the subtask interactions are all skipped
(no click on the subtask button, none of the three subtask names typed, no
Escape pressed), and the hierarchy capture is still taken. -/
theorem subtask_absent_hierarchy_still_captured (env : Env)
    (hF : ∀ tr e, env.failsWith tr e = none)
    (hsub : ∀ tr, env.count tr subtaskButtonsSelector = 0) :
    ∃ tr, runSteps env script [] = .ok tr ∧
      Event.screenshot "docs/images/03_list_view_hierarchy.png" ∈ tr ∧
      Event.click subtaskButtonsSelector (some 1) ∉ tr ∧
      Event.keyType "要件定義" ∉ tr ∧
      Event.keyType "ワイヤーフレーム作成" ∉ tr ∧
      Event.keyType "サイトマップ作成" ∉ tr ∧
      Event.press "Escape" ∉ tr := by
  obtain ⟨trA, hA⟩ := runSteps_noFail_ok env hF scriptThroughSecondCapture []
  obtain ⟨ΔA, hΔA, hmemA⟩ := runSteps_events env scriptThroughSecondCapture []
  rw [hA] at hΔA
  simp only [observedTrace, List.nil_append] at hΔA
  have hskip : runSteps env (subtaskBlock :: scriptAfterSubtask) trA
      = runSteps env scriptAfterSubtask (trA ++ [Event.query subtaskButtonsSelector]) :=
    runSteps_condBlock_skip env subtaskButtonsSelector 1 _ _ trA (hF _ _)
      (by simp [hsub])
  obtain ⟨trC, hC⟩ := runSteps_noFail_ok env hF scriptAfterSubtask
    (trA ++ [Event.query subtaskButtonsSelector])
  obtain ⟨ΔB, hΔB, hmemB⟩ := runSteps_events env scriptAfterSubtask
    (trA ++ [Event.query subtaskButtonsSelector])
  rw [hC] at hΔB
  simp only [observedTrace] at hΔB
  have hrun : runSteps env script [] = .ok trC := by
    rw [show script = scriptThroughSecondCapture ++ subtaskBlock :: scriptAfterSubtask
        from rfl,
      runSteps_append, hA]
    show runSteps env (subtaskBlock :: scriptAfterSubtask) trA = .ok trC
    rw [hskip, hC]
  have hsplitmem : ∀ x, x ∈ trC →
      x ∈ eventsOfSteps scriptThroughSecondCapture ∨
      x = Event.query subtaskButtonsSelector ∨
      x ∈ eventsOfSteps scriptAfterSubtask := by
    intro x hx
    rw [hΔB] at hx
    rcases List.mem_append.mp hx with hx | hx
    · rcases List.mem_append.mp hx with hx | hx
      · rw [hΔA] at hx
        exact Or.inl (hmemA x hx)
      · exact Or.inr (Or.inl (by simpa using hx))
    · exact Or.inr (Or.inr (hmemB x hx))
  refine ⟨trC, hrun,
    runSteps_ok_top_act env scriptAfterSubtask _ trC hC _
      (by simp [scriptAfterSubtask, script, addTaskBlock, subtaskBlock]),
    ?_, ?_, ?_, ?_, ?_⟩ <;>
    intro hx <;>
    rcases hsplitmem _ hx with h | h | h <;>
    revert h <;> decide

/-- Witness for C5: on a page where every selector (in particular the
subtask-add selector) matches nothing and nothing throws, the run completes
with the hierarchy capture in the trace and no subtask interaction. -/
theorem subtask_absent_hierarchy_still_captured_witness :
    (∀ tr e, envAllZero.failsWith tr e = none) ∧
    (∀ tr, envAllZero.count tr subtaskButtonsSelector = 0) ∧
    (∃ tr, runSteps envAllZero script [] = .ok tr ∧
      Event.screenshot "docs/images/03_list_view_hierarchy.png" ∈ tr ∧
      Event.click subtaskButtonsSelector (some 1) ∉ tr ∧
      Event.keyType "要件定義" ∉ tr ∧
      Event.keyType "ワイヤーフレーム作成" ∉ tr ∧
      Event.keyType "サイトマップ作成" ∉ tr ∧
      Event.press "Escape" ∉ tr) :=
  ⟨fun _ _ => rfl, fun _ => rfl,
    subtask_absent_hierarchy_still_captured envAllZero
      (fun _ _ => rfl) (fun _ => rfl)⟩

/-- Witness for C10: with exactly one subtask-add button on the page the
subtask block reduces to its query alone. -/
theorem subtask_block_needs_more_than_one_witness :
    envAllOne.count [] subtaskButtonsSelector = 1 ∧
    envAllOne.failsWith [] (.query subtaskButtonsSelector) = none ∧
    runSteps envAllOne [subtaskBlock] []
      = runSteps envAllOne [] [Event.query subtaskButtonsSelector] :=
  ⟨rfl, rfl, (subtask_block_needs_more_than_one envAllOne [] [] rfl rfl).2.2⟩

end Gantty
